import Mathlib

/-
Verification of the scoped metrics-tracing capture mechanism
(`MetricsCapture.__enter__` / `MetricsCapture.__exit__` in
`google/cloud/spanner_v1/metrics/metrics_capture.py`).

Tracers are identified by natural numbers; the per-logical-thread ambient
slot is an `Option Nat` (`none` = no ambient tracer).  The factory flag
`enabled` is process-wide mutable configuration, so the entry read and the
exit read are independent booleans.  Calls the capture makes at the
registry/tracer boundary are logged as events, in program order.
-/

deriving instance DecidableEq for Except

namespace MetricsCapture

/-- One observable call made by the capture at the registry/tracer boundary,
in the order the Python code performs it. -/
inductive Event where
  | createTracer (res : Option Nat)
  | setCurrentTracer (t : Option Nat)
  | recordOperationStart (t : Nat)
  | getCurrentTracer (res : Option Nat)
  | recordOperationCompletion (t : Nat)
  | resetCurrentTracer (prior : Option Nat)
  deriving DecidableEq, Repr

/-- Modelled from the spec: the opaque restoration Token produced by
`set_current_tracer` (the factory module defining it is not part of the
sources).  Per the spec, a Token captures "the value of the slot immediately
prior to the set".  A Token object is always truthy in Python. -/
structure Token where
  prior : Option Nat
  deriving DecidableEq, Repr

/-- The capture instance state: the `_token` instance attribute, which the
Python code may leave unset (`none` models the attribute being absent, as
probed by `getattr(self, "_token", None)`). -/
structure Capture where
  _token : Option Token
  deriving DecidableEq, Repr

/-- Modelled from the spec: `SpannerMetricsTracerFactory.set_current_tracer`
(not in the sources).  Installs the argument as the ambient value and returns
a Token capturing the previous ambient value. -/
def set_current_tracer (slot t : Option Nat) : Token × Option Nat :=
  (⟨slot⟩, t)

/-- Modelled from the spec: `SpannerMetricsTracerFactory.get_current_tracer`
(not in the sources).  Returns the ambient value without mutating it. -/
def get_current_tracer (slot : Option Nat) : Option Nat :=
  slot

/-- Modelled from the spec: `SpannerMetricsTracerFactory.reset_current_tracer`
(not in the sources).  Restores the ambient value that the Token captured. -/
def reset_current_tracer (tok : Token) : Option Nat :=
  tok.prior

/-- Result of `__enter__`: the updated capture instance, the ambient slot
after entry, and the boundary calls made, in order. -/
structure EnterResult where
  capture : Capture
  slot : Option Nat
  events : List Event
  deriving DecidableEq, Repr

/-- `MetricsCapture.__enter__`, translated from the source.  `enabled` is the
flag as read at entry; `factoryYield` is what `factory.create_metrics_tracer()`
returns (the factory may yield no tracer); `slot` is the ambient slot of the
calling logical thread; `c` is the instance (`self`). -/
def enter (enabled : Bool) (factoryYield : Option Nat) (slot : Option Nat)
    (c : Capture) : EnterResult :=
  if !enabled then
    ⟨c, slot, []⟩
  else
    let tracer := factoryYield
    let p := set_current_tracer slot tracer
    let startEvs : List Event :=
      match tracer with
      | some t => [Event.recordOperationStart t]
      | none => []
    ⟨⟨some p.1⟩, p.2,
      Event.createTracer tracer :: Event.setCurrentTracer tracer :: startEvs⟩

/-- Result of `__exit__`: the ambient slot when it finishes, the boundary
calls made, and the outcome — `Except.ok b` when it returns the boolean `b`,
`Except.error e` when a call it made raised `e` out of `__exit__`. -/
structure ExitResult where
  slot : Option Nat
  events : List Event
  outcome : Except Nat Bool
  deriving DecidableEq, Repr

/-- `MetricsCapture.__exit__`, translated from the source.  `enabled` is the
flag as read at exit; `completionErr` is `some e` when the external call
`tracer.record_operation_completion()` would raise `e` (the source has no
try/finally around it); `slot` is the ambient slot at exit time; `c` is the
instance.  The guard `getattr(self, "_token", None)` is the match on
`c._token`; a present Token is always truthy. -/
def exit (enabled : Bool) (completionErr : Option Nat) (slot : Option Nat)
    (c : Capture) : ExitResult :=
  if !enabled then
    ⟨slot, [], Except.ok false⟩
  else
    let tracer := get_current_tracer slot
    let getEv := Event.getCurrentTracer tracer
    match tracer with
    | some t =>
      match completionErr with
      | some e =>
        ⟨slot, [getEv, Event.recordOperationCompletion t], Except.error e⟩
      | none =>
        match c._token with
        | some tok =>
          ⟨reset_current_tracer tok,
            [getEv, Event.recordOperationCompletion t,
              Event.resetCurrentTracer tok.prior],
            Except.ok false⟩
        | none =>
          ⟨slot, [getEv, Event.recordOperationCompletion t], Except.ok false⟩
    | none =>
      match c._token with
      | some tok =>
        ⟨reset_current_tracer tok, [getEv, Event.resetCurrentTracer tok.prior],
          Except.ok false⟩
      | none =>
        ⟨slot, [getEv], Except.ok false⟩

/-- Result of one whole `with MetricsCapture():` execution: the final ambient
slot, all boundary calls in order, and what the caller of the with-block
observes (`Except.error e` when an exception `e` escapes). -/
structure RunResult where
  slot : Option Nat
  events : List Event
  outcome : Except Nat Unit
  deriving DecidableEq, Repr

/-- One full `with MetricsCapture():` execution under the Python with-statement
protocol.  The wrapped body is given by its effect on the ambient slot
(`bodySlot`) and its own outcome (`bodyOutcome`); the `enabled` flag is read
independently at entry and at exit.  `__exit__` runs unconditionally; if it
raises, the caller sees that exception; if it returns `True` it would suppress
a body exception; returning `False` propagates the body outcome unchanged. -/
def runCapture (enabledAtEnter enabledAtExit : Bool) (factoryYield : Option Nat)
    (bodySlot : Option Nat → Option Nat) (bodyOutcome : Except Nat Unit)
    (completionErr : Option Nat) (slot0 : Option Nat) : RunResult :=
  let er := enter enabledAtEnter factoryYield slot0 ⟨none⟩
  let slot1 := bodySlot er.slot
  let xr := exit enabledAtExit completionErr slot1 er.capture
  let outcome : Except Nat Unit :=
    match xr.outcome with
    | Except.error e => Except.error e
    | Except.ok true => Except.ok ()
    | Except.ok false => bodyOutcome
  ⟨xr.slot, er.events ++ xr.events, outcome⟩

/-- Claim C4: when `enabled` is false at both entry and exit, the capture is a
pure no-op — no tracer is created, no boundary call is made, and the ambient
slot is returned untouched by both halves of the lifecycle. -/
theorem noop_when_disabled (factoryYield slot0 : Option Nat) (c : Capture)
    (completionErr : Option Nat) :
    enter false factoryYield slot0 c = ⟨c, slot0, []⟩ ∧
    exit false completionErr slot0 c = ⟨slot0, [], Except.ok false⟩ := by
  exact ⟨rfl, rfl⟩

/-- Claim C7: whenever `enabled` reads false at exit time — whatever the
instance holds in `_token` and whatever is ambient — `__exit__` performs no
work: no boundary call, no token consumption, the slot exactly as it was, and
it returns False. -/
theorem disabled_at_exit_frame (completionErr slot : Option Nat) (c : Capture) :
    exit false completionErr slot c = ⟨slot, [], Except.ok false⟩ := by
  exact rfl

/-- Claim C8: finding the ambient slot empty never raises: with no ambient
tracer, `__exit__` returns normally and makes no completion call (even when
the external completion call would have raised), and `__enter__` with a
factory yielding no tracer makes no start call. -/
theorem empty_slot_never_raises (enabled : Bool) (completionErr : Option Nat)
    (c c2 : Capture) (slot0 : Option Nat) :
    (exit enabled completionErr none c).outcome = Except.ok false ∧
    (∀ t, Event.recordOperationCompletion t ∉
      (exit enabled completionErr none c).events) ∧
    (∀ t, Event.recordOperationStart t ∉ (enter enabled none slot0 c2).events) := by
  obtain ⟨tk⟩ := c
  cases enabled <;> cases tk <;>
    simp [exit, enter, get_current_tracer, reset_current_tracer]

/-- Claim C9: if `__enter__` returned with the `_token` attribute unset
(because `enabled` was false at entry), a later `__exit__` with `enabled` true
completes normally — the guarded attribute lookup yields nothing, the reset
step is skipped, and the slot is left as `__exit__` found it. -/
theorem unset_token_guarded (factoryYield slot0 slot : Option Nat) :
    (enter false factoryYield slot0 ⟨none⟩).capture._token = none ∧
    (exit true none slot (enter false factoryYield slot0 ⟨none⟩).capture).outcome
      = Except.ok false ∧
    (∀ p, Event.resetCurrentTracer p ∉
      (exit true none slot (enter false factoryYield slot0 ⟨none⟩).capture).events) ∧
    (exit true none slot (enter false factoryYield slot0 ⟨none⟩).capture).slot
      = slot := by
  cases slot <;> simp [enter, exit, get_current_tracer]

/-- Claim C5, counterexample: with `enabled` true and the factory yielding no
tracer, the claim asserts no `set_current_tracer` call occurs, the slot is not
mutated, and no token is retained.  At prior ambient tracer 5 all three parts
are false: the code passes the `None` result straight to
`set_current_tracer`, overwriting the slot and keeping the token. -/
theorem factory_none_counterexample :
    ¬ (Event.setCurrentTracer none ∉ (enter true none (some 5) ⟨none⟩).events ∧
       (enter true none (some 5) ⟨none⟩).slot = some 5 ∧
       (enter true none (some 5) ⟨none⟩).capture._token = none) := by
  decide

/-- Claim C5, amended: with `enabled` true and the factory yielding no tracer,
the capture skips start-recording only; it still calls
`set_current_tracer(None)` — setting the ambient slot to none and retaining
the reset token for the prior value — and its exit path still performs the
enabled-check (doing nothing when disabled, restoring the prior slot via the
token when enabled). -/
theorem factory_none_installs_none (slot0 : Option Nat) (c : Capture) :
    (enter true none slot0 c).events =
      [Event.createTracer none, Event.setCurrentTracer none] ∧
    (∀ t, Event.recordOperationStart t ∉ (enter true none slot0 c).events) ∧
    (enter true none slot0 c).capture._token = some ⟨slot0⟩ ∧
    (enter true none slot0 c).slot = none ∧
    exit false none (enter true none slot0 c).slot (enter true none slot0 c).capture
      = ⟨none, [], Except.ok false⟩ ∧
    (exit true none (enter true none slot0 c).slot
      (enter true none slot0 c).capture).slot = slot0 := by
  simp [enter, exit, set_current_tracer, get_current_tracer, reset_current_tracer]

/-- Claim C6, counterexample: the claim asserts the reset step runs even when
the completion call raises.  With `enabled` true, ambient tracer 1, a retained
token for prior value none, and a completion call that raises 7, the reset
call never happens and the slot is not restored: the source has no
try/finally around the completion call. -/
theorem completion_raise_counterexample :
    ¬ (Event.resetCurrentTracer none ∈
         (exit true (some 7) (some 1) ⟨some ⟨none⟩⟩).events ∨
       (exit true (some 7) (some 1) ⟨some ⟨none⟩⟩).slot = none) := by
  decide

/-- Claim C6, amended: if the completion call raises, that exception
propagates out of `__exit__` and `reset_current_tracer` is never called — the
slot stays unrestored.  Restoration via the retained token runs only when the
completion call returns normally, or when no tracer is ambient (so the
completion call is never made). -/
theorem completion_raise_skips_reset (e t : Nat) (c : Capture) (tok : Token)
    (hc : c._token = some tok) :
    (exit true (some e) (some t) c).outcome = Except.error e ∧
    (∀ p, Event.resetCurrentTracer p ∉ (exit true (some e) (some t) c).events) ∧
    (exit true (some e) (some t) c).slot = some t ∧
    (exit true none (some t) c).slot = tok.prior ∧
    (exit true (some e) none c).slot = tok.prior := by
  simp [exit, get_current_tracer, reset_current_tracer, hc]

/-- Witness for the amended C6 theorem at capture with token for prior none,
ambient tracer 1, completion raising 7. -/
theorem completion_raise_skips_reset_witness :
    (Capture._token ⟨some ⟨none⟩⟩ = some ⟨none⟩) ∧
    (exit true (some 7) (some 1) ⟨some ⟨none⟩⟩).outcome = Except.error 7 ∧
    (∀ p, Event.resetCurrentTracer p ∉
      (exit true (some 7) (some 1) ⟨some ⟨none⟩⟩).events) ∧
    (exit true (some 7) (some 1) ⟨some ⟨none⟩⟩).slot = some 1 ∧
    (exit true none (some 1) ⟨some ⟨none⟩⟩).slot = none ∧
    (exit true (some 7) none (⟨some ⟨none⟩⟩ : Capture)).slot = none := by
  refine ⟨rfl, ?_⟩
  have h := completion_raise_skips_reset 7 1 ⟨some ⟨none⟩⟩ ⟨none⟩ rfl
  exact h

/-- Claim C10: `__exit__` records completion on whatever the ambient slot
holds at exit time, not on a tracer saved at entry: a completion call on v
occurs exactly when the slot at exit is v, and in a run whose body swaps the
installed tracer t for a different tracer u, completion lands on u and never
on t. -/
theorem completion_uses_ambient_at_exit (t u : Nat) (h : t ≠ u) :
    (∀ (s : Option Nat) (c : Capture) (v : Nat),
        Event.recordOperationCompletion v ∈ (exit true none s c).events ↔
          s = some v) ∧
    Event.recordOperationCompletion u ∈
      (runCapture true true (some t) (fun _ => some u) (Except.ok ()) none
        none).events ∧
    Event.recordOperationCompletion t ∉
      (runCapture true true (some t) (fun _ => some u) (Except.ok ()) none
        none).events := by
  refine ⟨?_, ?_, ?_⟩
  · intro s c v
    obtain ⟨tk⟩ := c
    cases s <;> cases tk <;>
      simp [exit, get_current_tracer, reset_current_tracer, eq_comm]
  · simp [runCapture, enter, exit, set_current_tracer, get_current_tracer,
      reset_current_tracer]
  · simp [runCapture, enter, exit, set_current_tracer, get_current_tracer,
      reset_current_tracer, h]

/-- Witness for the C10 theorem at installed tracer 1 and body-swapped
tracer 2. -/
theorem completion_uses_ambient_at_exit_witness :
    (1 : Nat) ≠ 2 ∧
    Event.recordOperationCompletion 2 ∈
      (runCapture true true (some 1) (fun _ => some 2) (Except.ok ()) none
        none).events :=
  ⟨by decide, (completion_uses_ambient_at_exit 1 2 (by decide)).2.1⟩

/-- Claim C1: in a run with metrics enabled at both halves where the factory
yields tracer t, the completion call succeeds, and the wrapped body leaves the
ambient slot as it found it, the boundary calls are exactly: create, install
(token creation), start on t, read, completion on t, reset (token
consumption) — so start on t happens exactly once, before the single
completion on t, the install precedes the start, and the token is created
before it is consumed; the slot ends restored to its pre-capture value. -/
theorem start_completion_pairing (t : Nat) (slot0 : Option Nat)
    (bodySlot : Option Nat → Option Nat) (bodyOutcome : Except Nat Unit)
    (hb : bodySlot (some t) = some t) :
    (runCapture true true (some t) bodySlot bodyOutcome none slot0).events =
      [Event.createTracer (some t), Event.setCurrentTracer (some t),
        Event.recordOperationStart t, Event.getCurrentTracer (some t),
        Event.recordOperationCompletion t, Event.resetCurrentTracer slot0] ∧
    (runCapture true true (some t) bodySlot bodyOutcome none slot0).events.count
      (Event.recordOperationStart t) = 1 ∧
    (runCapture true true (some t) bodySlot bodyOutcome none slot0).events.count
      (Event.recordOperationCompletion t) = 1 ∧
    (∃ pre mid post,
      (runCapture true true (some t) bodySlot bodyOutcome none slot0).events =
        pre ++ Event.recordOperationStart t ::
          (mid ++ Event.recordOperationCompletion t :: post) ∧
      Event.setCurrentTracer (some t) ∈ pre ∧
      Event.resetCurrentTracer slot0 ∈ post) ∧
    (runCapture true true (some t) bodySlot bodyOutcome none slot0).slot =
      slot0 := by
  have hev : (runCapture true true (some t) bodySlot bodyOutcome none
      slot0).events =
      [Event.createTracer (some t), Event.setCurrentTracer (some t),
        Event.recordOperationStart t, Event.getCurrentTracer (some t),
        Event.recordOperationCompletion t, Event.resetCurrentTracer slot0] := by
    simp [runCapture, enter, exit, set_current_tracer, get_current_tracer,
      reset_current_tracer, hb]
  refine ⟨hev, ?_, ?_, ?_, ?_⟩
  · rw [hev]; simp [List.count_cons]
  · rw [hev]; simp [List.count_cons]
  · exact ⟨[Event.createTracer (some t), Event.setCurrentTracer (some t)],
      [Event.getCurrentTracer (some t)], [Event.resetCurrentTracer slot0],
      by rw [hev]; rfl, by simp, by simp⟩
  · simp [runCapture, enter, exit, set_current_tracer, get_current_tracer,
      reset_current_tracer, hb]

/-- Witness for the C1 theorem at tracer 1, empty prior slot, identity body. -/
theorem start_completion_pairing_witness :
    (fun (s : Option Nat) => s) (some 1) = some 1 ∧
    (runCapture true true (some 1) (fun s => s) (Except.ok ()) none
      none).events.count (Event.recordOperationStart 1) = 1 ∧
    (runCapture true true (some 1) (fun s => s) (Except.ok ()) none
      none).events.count (Event.recordOperationCompletion 1) = 1 :=
  ⟨rfl,
    (start_completion_pairing 1 none (fun s => s) (Except.ok ()) rfl).2.1,
    (start_completion_pairing 1 none (fun s => s) (Except.ok ()) rfl).2.2.1⟩

/-- Claim C2: when the wrapped body fails with e (and the completion call
itself returns normally), the exit bookkeeping still runs — completion is
recorded, the token is consumed and the slot restored — and the caller
observes exactly the error e, because `__exit__`, whenever it returns at all,
returns False on every path. -/
theorem failure_transparency (t e : Nat) (slot0 : Option Nat)
    (bodySlot : Option Nat → Option Nat) (hb : bodySlot (some t) = some t) :
    (runCapture true true (some t) bodySlot (Except.error e) none
      slot0).outcome = Except.error e ∧
    (runCapture true true (some t) bodySlot (Except.error e) none slot0).slot
      = slot0 ∧
    Event.recordOperationCompletion t ∈
      (runCapture true true (some t) bodySlot (Except.error e) none
        slot0).events ∧
    Event.resetCurrentTracer slot0 ∈
      (runCapture true true (some t) bodySlot (Except.error e) none
        slot0).events ∧
    (∀ (en : Bool) (ce s : Option Nat) (c : Capture) (b : Bool),
        (exit en ce s c).outcome = Except.ok b → b = false) := by
  refine ⟨?_, ?_, ?_, ?_, ?_⟩
  · simp [runCapture, enter, exit, set_current_tracer, get_current_tracer,
      reset_current_tracer, hb]
  · simp [runCapture, enter, exit, set_current_tracer, get_current_tracer,
      reset_current_tracer, hb]
  · simp [runCapture, enter, exit, set_current_tracer, get_current_tracer,
      reset_current_tracer, hb]
  · simp [runCapture, enter, exit, set_current_tracer, get_current_tracer,
      reset_current_tracer, hb]
  · intro en ce s c b hx
    obtain ⟨tk⟩ := c
    cases en <;> cases s <;> cases tk <;> cases ce <;>
      simp_all [exit, get_current_tracer, reset_current_tracer]

/-- Witness for the C2 theorem at tracer 1, error 2, empty prior slot,
identity body. -/
theorem failure_transparency_witness :
    (fun (s : Option Nat) => s) (some 1) = some 1 ∧
    (runCapture true true (some 1) (fun s => s) (Except.error 2) none
      none).outcome = Except.error 2 :=
  ⟨rfl, (failure_transparency 1 2 none (fun s => s) rfl).1⟩

/-- Claim C3: for nested captures with metrics enabled throughout — outer
installs t1 over an empty slot, inner installs t2 while t1 is ambient — after
the inner capture exits the ambient slot holds t1 again (the outer tracer),
and after the outer capture exits it holds none: each reset with the
capture-own token restores exactly the value ambient before its set. -/
theorem nested_restoration (t1 t2 : Nat) (bodyInner : Option Nat → Option Nat)
    (h2 : bodyInner (some t2) = some t2) :
    (runCapture true true (some t2) bodyInner (Except.ok ()) none
      (enter true (some t1) none ⟨none⟩).slot).slot = some t1 ∧
    get_current_tracer
      (runCapture true true (some t2) bodyInner (Except.ok ()) none
        (enter true (some t1) none ⟨none⟩).slot).slot = some t1 ∧
    (exit true none
      (runCapture true true (some t2) bodyInner (Except.ok ()) none
        (enter true (some t1) none ⟨none⟩).slot).slot
      (enter true (some t1) none ⟨none⟩).capture).slot = none := by
  refine ⟨?_, ?_, ?_⟩ <;>
    simp [runCapture, enter, exit, set_current_tracer, get_current_tracer,
      reset_current_tracer, h2]

/-- Witness for the C3 theorem at outer tracer 1, inner tracer 2, identity
inner body. -/
theorem nested_restoration_witness :
    (fun (s : Option Nat) => s) (some 2) = some 2 ∧
    (runCapture true true (some 2) (fun s => s) (Except.ok ()) none
      (enter true (some 1) none ⟨none⟩).slot).slot = some 1 :=
  ⟨rfl, (nested_restoration 1 2 (fun s => s) rfl).1⟩

end MetricsCapture
